import Mathlib

/-!
Verification of the client dispatch core of a command-line chat client
(`src/client/mod.rs`): backend registry, dry-run interception, cancellable
streaming bridge, proxy resolution and model catalog.

Errors carry a context chain (`List String`): `anyhow`'s `with_context`
prepends a human-readable qualifier while preserving the original cause,
modelled here as consing the qualifier onto the chain.
-/

namespace AIChat

/-- Error with context chain: head is the outermost context, tail the cause. -/
def ErrChain := List String

instance : DecidableEq ErrChain := inferInstanceAs (DecidableEq (List String))

/-- One entry of a backend's model catalog (name and token limit), as carried
by a backend's configuration. -/
structure ModelEntry where
  mname : String
  max_tokens : Nat
deriving DecidableEq, Repr

/-- Modelled from the spec: `openai.rs` is not under src/; per the plugin
contract its config carries connection parameters and the models it offers. -/
structure OpenAIConfig where
  models : List ModelEntry
deriving DecidableEq, Repr

/-- Modelled from the spec: `localai.rs` is not under src/; per the plugin
contract its config carries connection parameters and the models it offers. -/
structure LocalAIConfig where
  models : List ModelEntry
deriving DecidableEq, Repr

/-- `ClientConfig`: sum type over backend kinds (serde tag "type"). -/
inductive ClientConfig
  | openai (c : OpenAIConfig)
  | localai (c : LocalAIConfig)
deriving DecidableEq, Repr

/-- `ModelInfo` from `src/client/mod.rs`: backend name, model name, token
limit, and the owning backend entry's position in the configured list. -/
structure ModelInfo where
  client : String
  name : String
  max_tokens : Nat
  index : Nat
deriving DecidableEq, Repr

/-- `Config` (the fields of `config::Config` this core reads): the `dry_run`
flag, the echo transform, the currently selected model, and the configured
backend list. `SharedConfig.read()` is modelled as direct field access (reads
are lock-protected snapshots; mutation is outside this core). `echo_messages`
is modelled from the spec (config module not under src/): a deterministic
transform of the content. -/
structure Config where
  dry_run : Bool
  echo_messages : String → String
  model_info : ModelInfo
  clients : List ClientConfig

/-- Accumulating whitespace splitter over a character list: emits each
maximal run of non-whitespace characters as one token. -/
def split_chars : List Char → List Char → List String
  | [], acc => if acc = [] then [] else [String.mk acc.reverse]
  | c :: rest, acc =>
    if c.isWhitespace then
      (if acc = [] then [] else [String.mk acc.reverse]) ++ split_chars rest []
    else split_chars rest (c :: acc)

/-- Modelled from the spec: `utils::split_text` is not under src/; the spec
says the dry-run streaming path splits the input into whitespace-delimited
tokens. The source signature is fallible (`Result`), kept here. -/
def split_text (s : String) : Except ErrChain (List String) :=
  .ok (split_chars s.data [])

/-- `Client::send_message`. The backend exchange `send_message_inner` is
abstracted as `innerF`; the second component counts how many times it was
invoked. On the dry-run path the echo transform is returned and the backend
is never called; otherwise the inner result is returned, a failure wrapped
with the "Failed to fetch" context. -/
def send_message (cfg : Config) (innerF : String → Except ErrChain String)
    (content : String) : Except ErrChain String × Nat :=
  if cfg.dry_run then
    (.ok (cfg.echo_messages content), 0)
  else
    match innerF content with
    | .ok s => (.ok s, 1)
    | .error e => (.error ("Failed to fetch" :: e), 1)

/-- Abstraction of a backend's `send_message_streaming_inner` run: the chunks
it pushes to the handler before finishing, and its final result. -/
structure InnerStream where
  chunks : List String
  result : Except ErrChain Unit

/-- An event observed by the `ReplyStreamHandler`: an incremental text chunk
or the terminal "done" notification. -/
inductive HEvent
  | text (s : String)
  | done
deriving DecidableEq, Repr

/-- The primary task of the streaming select: on dry run, split the input and
push the echo transform of each word (no backend call); otherwise run the
backend's streaming exchange. Returns (chunks pushed, result, backend called). -/
def primary_run (cfg : Config) (inner : InnerStream) (content : String) :
    List String × Except ErrChain Unit × Bool :=
  if cfg.dry_run then
    match split_text content with
    | .ok words => (words.map cfg.echo_messages, .ok (), false)
    | .error e => ([], .error e, false)
  else
    (inner.chunks, inner.result, true)

/-- Which branch of the `tokio::select!` race finishes first. Exactly one
branch wins; the losers are dropped without being awaited. -/
inductive Winner
  | primary
  | abortWatcher
  | ctrlc
deriving DecidableEq, Repr

/-- Observable outcome of one streaming call: the ordered handler events, the
value returned to the synchronous caller, whether the abort signal's ctrl-c
(interrupted) sub-state was marked, and how many backend calls were made. -/
structure StreamOutcome where
  events : List HEvent
  result : Except ErrChain Unit
  ctrlcSet : Bool
  innerCalls : Nat

/-- `Client::send_message_streaming`: races the primary task against the
abort watcher and ctrl-c. `winner` is which branch finished first (decided by
timing in the source); `delivered` is how many of the primary task's chunks
reached the handler before a preempting branch won. The primary branch calls
`handler.done()` then returns its result wrapped with "Failed to fetch
stream" on error; the abort branch calls `handler.done()` and returns Ok; the
ctrl-c branch marks `abort.set_ctrlc()` and returns Ok without done. -/
def send_message_streaming (cfg : Config) (inner : InnerStream)
    (content : String) (winner : Winner) (delivered : Nat) : StreamOutcome :=
  let p := primary_run cfg inner content
  let calls : Nat := if p.2.2 then 1 else 0
  match winner with
  | .primary =>
    { events := p.1.map HEvent.text ++ [HEvent.done]
      result := match p.2.1 with
        | .ok _ => .ok ()
        | .error e => .error ("Failed to fetch stream" :: e)
      ctrlcSet := false
      innerCalls := calls }
  | .abortWatcher =>
    { events := (p.1.take delivered).map HEvent.text ++ [HEvent.done]
      result := .ok ()
      ctrlcSet := false
      innerCalls := calls }
  | .ctrlc =>
    { events := (p.1.take delivered).map HEvent.text
      result := .ok ()
      ctrlcSet := true
      innerCalls := calls }

/-- The poll loop of `watch_abort`, polling the abort flag once per iteration
(one sleep of 100ms between polls), starting at poll index `k` with `fuel`
iterations available: returns the index of the first poll that observes the
flag set. -/
def first_abort_poll (ab : Nat → Bool) : Nat → Nat → Option Nat
  | 0, _ => none
  | fuel + 1, k => if ab k then some k else first_abort_poll ab fuel (k + 1)

/-- `watch_abort`: poll the shared abort signal from poll index 0, breaking at
the first poll that observes `aborted = true`. -/
def watch_abort (ab : Nat → Bool) (fuel : Nat) : Option Nat :=
  first_abort_poll ab fuel 0

/-- `init_client`: try the OpenAI probe, then the LocalAI probe; the first
match wins; otherwise fail naming the configured backend identifier and its
position in `config.clients`. The probes (`OpenAIClient::init`,
`LocalAIClient::init`, not under src/) are abstracted as parameters. -/
def init_client {κ : Type} (openai_init localai_init : Config → Option κ)
    (config : Config) : Except String κ :=
  match (openai_init config).orElse (fun _ => localai_init config) with
  | some c => .ok c
  | none =>
    .error ("Unknown client " ++ config.model_info.client
      ++ " at config.clients[" ++ toString config.model_info.index ++ "]")

/-- Modelled from the spec: `OpenAIClient::name()` (openai.rs not under src/)
is the stable identifier used in error messages and CLI selection. -/
def OpenAIClient.name : String := "openai"

/-- Modelled from the spec: `LocalAIClient::name()` (localai.rs not under
src/) is the stable identifier used in error messages and CLI selection. -/
def LocalAIClient.name : String := "localai"

/-- `all_clients`: the registered backend kinds in their fixed order. -/
def all_clients : List String := [OpenAIClient.name, LocalAIClient.name]

/-- `create_client_config`: dispatch on the backend kind name; unknown names
fail. The per-kind templates (`create_config`, not under src/) are abstracted
as parameters. -/
def create_client_config (openai_tpl localai_tpl : String) (client : String) :
    Except String String :=
  if client = OpenAIClient.name then .ok openai_tpl
  else if client = LocalAIClient.name then .ok localai_tpl
  else .error ("Unknown client " ++ client)

/-- Modelled from the spec: `OpenAIClient::list_models(config, index)`
(openai.rs not under src/) enumerates the models the backend offers, each
tagged with the given backend-entry index. -/
def OpenAIClient.list_models (c : OpenAIConfig) (i : Nat) : List ModelInfo :=
  c.models.map (fun m =>
    { client := OpenAIClient.name, name := m.mname
      max_tokens := m.max_tokens, index := i })

/-- Modelled from the spec: `LocalAIClient::list_models(config, index)`
(localai.rs not under src/) enumerates the models the backend offers, each
tagged with the given backend-entry index. -/
def LocalAIClient.list_models (c : LocalAIConfig) (i : Nat) : List ModelInfo :=
  c.models.map (fun m =>
    { client := LocalAIClient.name, name := m.mname
      max_tokens := m.max_tokens, index := i })

/-- `list_models`: enumerate the configured backend entries and concatenate
each kind's models tagged with the entry's position (`flat_map` over
`enumerate`). -/
def list_models (config : Config) : List ModelInfo :=
  ((config.clients.enum).map (fun p =>
    match p.2 with
    | ClientConfig.openai c => OpenAIClient.list_models c p.1
    | ClientConfig.localai c => LocalAIClient.list_models c p.1)).flatten

/-- The models of one backend entry tagged with index `i` (the registry's
dispatch on the entry's kind). -/
def kind_models : ClientConfig → Nat → List ModelInfo
  | ClientConfig.openai c, i => OpenAIClient.list_models c i
  | ClientConfig.localai c, i => LocalAIClient.list_models c i

/-- The model catalog as the spec words it: iterate the configured backend
entries in configuration order, tag each entry's models with that entry's
position, and concatenate. -/
def catalog_from : List ClientConfig → Nat → List ModelInfo
  | [], _ => []
  | c :: rest, i => kind_models c i ++ catalog_from rest (i + 1)

/-- Installing a proxy from the string `p`: parse it (`Proxy::all`, abstracted
as `parse`) and install it on success, or fail naming the offending value. -/
def apply_proxy {α : Type} (parse : String → Option α) (p : String) :
    Except ErrChain (Option α) :=
  match parse p with
  | some px => .ok (some px)
  | none => .error ["Invalid proxy `" ++ p ++ "`"]

/-- `set_proxy`: explicit opt-outs `""`, `"false"`, `"-"` disable proxying;
any other explicit value is parsed; absent an explicit value, fall back to
`HTTPS_PROXY` then `ALL_PROXY` (first present wins), else disabled. The
environment is abstracted as `env`; `.ok none` means no proxy installed (the
builder is returned unchanged). -/
def set_proxy {α : Type} (parse : String → Option α)
    (env : String → Option String) (proxy : Option String) :
    Except ErrChain (Option α) :=
  match proxy with
  | some p =>
    if p = "" ∨ p = "false" ∨ p = "-" then .ok none
    else apply_proxy parse p
  | none =>
    match (env "HTTPS_PROXY").orElse (fun _ => env "ALL_PROXY") with
    | some p => apply_proxy parse p
    | none => .ok none

/-- C1: when the shared configuration's `dry_run` flag is set, `send_message`
returns Ok of the echo transform of the input and never invokes the backend
exchange (`send_message_inner` is called 0 times). -/
theorem send_message_dry_run_echo (cfg : Config)
    (innerF : String → Except ErrChain String) (content : String)
    (h : cfg.dry_run = true) :
    send_message cfg innerF content = (.ok (cfg.echo_messages content), 0) := by
  simp [send_message, h]

/-- Concrete fixture: a dry-run configuration with a visible echo transform. -/
def cfgDry : Config :=
  { dry_run := true
    echo_messages := fun s => "echo:" ++ s
    model_info := { client := "openai", name := "gpt-a", max_tokens := 4096, index := 0 }
    clients := [] }

/-- Concrete fixture: a non-dry-run configuration. -/
def cfgLive : Config :=
  { dry_run := false
    echo_messages := fun s => "echo:" ++ s
    model_info := { client := "mystery", name := "m", max_tokens := 16, index := 3 }
    clients := [] }

theorem send_message_dry_run_echo_witness :
    cfgDry.dry_run = true ∧
      send_message cfgDry (fun _ => .error ["net"]) "hello"
        = (.ok "echo:hello", 0) :=
  ⟨rfl, send_message_dry_run_echo cfgDry (fun _ => .error ["net"]) "hello" rfl⟩

/-- C3: proxy resolution disables proxying for explicit `""`, `"false"`,
`"-"`; parses any other explicit value, failing with an error naming the
offending value when invalid; and with no explicit value falls back to
`HTTPS_PROXY` then `ALL_PROXY` (first present wins), disabled when neither is
set. -/
theorem set_proxy_spec {α : Type} (parse : String → Option α)
    (env : String → Option String) (p : String) (px : α) :
    (set_proxy parse env (some "") = .ok none)
    ∧ (set_proxy parse env (some "false") = .ok none)
    ∧ (set_proxy parse env (some "-") = .ok none)
    ∧ (p ≠ "" → p ≠ "false" → p ≠ "-" → parse p = some px →
        set_proxy parse env (some p) = .ok (some px))
    ∧ (p ≠ "" → p ≠ "false" → p ≠ "-" → parse p = none →
        set_proxy parse env (some p) = .error ["Invalid proxy `" ++ p ++ "`"])
    ∧ (env "HTTPS_PROXY" = some p → set_proxy parse env none = apply_proxy parse p)
    ∧ (env "HTTPS_PROXY" = none → env "ALL_PROXY" = some p →
        set_proxy parse env none = apply_proxy parse p)
    ∧ (env "HTTPS_PROXY" = none → env "ALL_PROXY" = none →
        set_proxy parse env none = .ok none) := by
  refine ⟨rfl, rfl, rfl, ?_, ?_, ?_, ?_, ?_⟩
  · intro h1 h2 h3 hp
    simp [set_proxy, h1, h2, h3, apply_proxy, hp]
  · intro h1 h2 h3 hp
    simp [set_proxy, h1, h2, h3, apply_proxy, hp]
  · intro h
    simp [set_proxy, h, Option.orElse]
  · intro h1 h2
    simp [set_proxy, h1, h2, Option.orElse]
  · intro h1 h2
    simp [set_proxy, h1, h2, Option.orElse]

/-- A tiny stand-in environment with only `ALL_PROXY` set. -/
def envAllOnly : String → Option String :=
  fun k => if k = "ALL_PROXY" then some "http://all.example" else none

/-- A stand-in proxy parser rejecting exactly the string "bad url". -/
def parseSample : String → Option String :=
  fun s => if s = "bad url" then none else some s

theorem set_proxy_spec_witness :
    (set_proxy parseSample envAllOnly (some "") = .ok none)
    ∧ (set_proxy parseSample envAllOnly (some "http://x") = .ok (some "http://x"))
    ∧ (set_proxy parseSample envAllOnly (some "bad url") = .error ["Invalid proxy `bad url`"])
    ∧ (set_proxy parseSample envAllOnly none = apply_proxy parseSample "http://all.example") :=
  ⟨(set_proxy_spec parseSample envAllOnly "x" "x").1,
   (set_proxy_spec parseSample envAllOnly "http://x" "http://x").2.2.2.1
     (by decide) (by decide) (by decide) (by decide),
   (set_proxy_spec parseSample envAllOnly "bad url" "bad url").2.2.2.2.1
     (by decide) (by decide) (by decide) (by decide),
   (set_proxy_spec parseSample envAllOnly "http://all.example"
     "http://all.example").2.2.2.2.2.2.1 rfl rfl⟩

theorem count_done_zero (l : List HEvent) (h : HEvent.done ∉ l) :
    l.count HEvent.done = 0 :=
  List.count_eq_zero.mpr h

theorem count_done_concat (l : List HEvent) (h : HEvent.done ∉ l) :
    (l ++ [HEvent.done]).count HEvent.done = 1 := by
  simp [List.count_append, count_done_zero l h]

theorem done_not_mem_take_map_text (l : List String) (d : Nat) :
    HEvent.done ∉ (l.map HEvent.text).take d := by
  intro h
  have := List.mem_of_mem_take h
  simp at this

theorem getLast?_concat_done (l : List HEvent) :
    (l ++ [HEvent.done]).getLast? = some HEvent.done := by
  simp [List.getLast?_concat]

/-- C2: when `dry_run` is set, the streaming call's primary task delivers to
the handler exactly one chunk per whitespace-delimited token of the input, in
input order, followed by exactly one "done" event (the last handler event),
and the backend streaming exchange is never called. -/
theorem streaming_dry_run_events (cfg : Config) (inner : InnerStream)
    (content : String) (d : Nat) (words : List String)
    (h : cfg.dry_run = true) (hw : split_text content = .ok words) :
    (send_message_streaming cfg inner content .primary d).events
        = words.map (fun w => HEvent.text (cfg.echo_messages w)) ++ [HEvent.done]
    ∧ (send_message_streaming cfg inner content .primary d).events.count
        HEvent.done = 1
    ∧ (send_message_streaming cfg inner content .primary d).events.getLast?
        = some HEvent.done
    ∧ (send_message_streaming cfg inner content .primary d).innerCalls = 0 := by
  have hpr : primary_run cfg inner content
      = (words.map cfg.echo_messages, .ok (), false) := by
    simp only [primary_run, h, if_true]
    rw [hw]
  have hev : (send_message_streaming cfg inner content .primary d).events
      = (words.map cfg.echo_messages).map HEvent.text ++ [HEvent.done] := by
    simp [send_message_streaming, hpr]
  refine ⟨?_, ?_, ?_, ?_⟩
  · rw [hev, List.map_map]
    rfl
  · rw [hev]
    exact count_done_concat _ (by simp)
  · rw [hev]
    exact getLast?_concat_done _
  · simp [send_message_streaming, hpr]

/-- Fixture: a backend streaming run that would push two chunks and succeed. -/
def innerTwo : InnerStream := { chunks := ["a", "b"], result := .ok () }

theorem streaming_dry_run_events_witness :
    cfgDry.dry_run = true ∧ split_text "hi there" = .ok ["hi", "there"] ∧
    ((send_message_streaming cfgDry innerTwo "hi there" .primary 0).events
        = [HEvent.text "echo:hi", HEvent.text "echo:there", HEvent.done]
      ∧ (send_message_streaming cfgDry innerTwo "hi there" .primary 0).events.count
          HEvent.done = 1
      ∧ (send_message_streaming cfgDry innerTwo "hi there" .primary 0).events.getLast?
          = some HEvent.done
      ∧ (send_message_streaming cfgDry innerTwo "hi there" .primary 0).innerCalls = 0) :=
  ⟨rfl, rfl,
   streaming_dry_run_events cfgDry innerTwo "hi there" 0 ["hi", "there"] rfl rfl⟩

/-- C10: each dry-run streaming chunk is the echo transform applied to the
individual word — the same transform the non-streaming dry-run path returns
for that word — not the raw token itself. -/
theorem streaming_chunk_matches_echo (cfg : Config) (inner : InnerStream)
    (innerF : String → Except ErrChain String) (content : String) (d : Nat)
    (words : List String) (h : cfg.dry_run = true)
    (hw : split_text content = .ok words) (i : Nat) (hi : i < words.length) :
    (send_message_streaming cfg inner content .primary d).events[i]?
        = some (HEvent.text (cfg.echo_messages words[i]))
    ∧ (send_message cfg innerF words[i]).1
        = .ok (cfg.echo_messages words[i]) := by
  have hpr : primary_run cfg inner content
      = (words.map cfg.echo_messages, .ok (), false) := by
    simp only [primary_run, h, if_true]
    rw [hw]
  constructor
  · have hev : (send_message_streaming cfg inner content .primary d).events
        = (words.map cfg.echo_messages).map HEvent.text ++ [HEvent.done] := by
      simp [send_message_streaming, hpr]
    rw [hev]
    simp [List.getElem?_append, hi, List.getElem?_eq_getElem]
  · simp [send_message, h]

theorem streaming_chunk_matches_echo_witness :
    cfgDry.dry_run = true ∧ split_text "hi there" = .ok ["hi", "there"]
    ∧ 1 < 2 ∧
    ((send_message_streaming cfgDry innerTwo "hi there" .primary 0).events[1]?
        = some (HEvent.text "echo:there")
      ∧ (send_message cfgDry (fun _ => .error ["net"]) "there").1
          = .ok "echo:there") :=
  ⟨rfl, rfl, by decide,
   streaming_chunk_matches_echo cfgDry innerTwo (fun _ => .error ["net"])
     "hi there" 0 ["hi", "there"] rfl rfl 1 (by decide)⟩

/-- C8: a backend failure during an exchange surfaces as exactly one failure,
wrapped with the fetch-context qualifier of the failing operation ("Failed to
fetch" for the single exchange, "Failed to fetch stream" for streaming) while
preserving the original cause; the backend is invoked exactly once (never
retried) and the error is never suppressed. -/
theorem backend_error_wrapped (cfg : Config)
    (innerF : String → Except ErrChain String) (inner : InnerStream)
    (content : String) (d : Nat) (e : ErrChain) (hdry : cfg.dry_run = false) :
    (innerF content = .error e →
      send_message cfg innerF content = (.error ("Failed to fetch" :: e), 1))
    ∧ (inner.result = .error e →
      (send_message_streaming cfg inner content .primary d).result
          = .error ("Failed to fetch stream" :: e))
    ∧ (send_message cfg innerF content).2 = 1
    ∧ (send_message_streaming cfg inner content .primary d).innerCalls = 1 := by
  refine ⟨?_, ?_, ?_, ?_⟩
  · intro he; simp [send_message, hdry, he]
  · intro he; simp [send_message_streaming, primary_run, hdry, he]
  · cases hc : innerF content <;> simp [send_message, hdry, hc]
  · simp [send_message_streaming, primary_run, hdry]

/-- Fixture: a backend streaming run that pushes one chunk then fails. -/
def innerErr : InnerStream := { chunks := ["part"], result := .error ["boom"] }

theorem backend_error_wrapped_witness :
    cfgLive.dry_run = false
    ∧ send_message cfgLive (fun _ => .error ["boom"]) "q"
        = (.error ["Failed to fetch", "boom"], 1)
    ∧ (send_message_streaming cfgLive innerErr "q" .primary 0).result
        = .error ["Failed to fetch stream", "boom"]
    ∧ (send_message_streaming cfgLive innerErr "q" .primary 0).innerCalls = 1 :=
  ⟨rfl,
   (backend_error_wrapped cfgLive (fun _ => .error ["boom"]) innerErr "q" 0
     ["boom"] rfl).1 rfl,
   (backend_error_wrapped cfgLive (fun _ => .error ["boom"]) innerErr "q" 0
     ["boom"] rfl).2.1 rfl,
   (backend_error_wrapped cfgLive (fun _ => .error ["boom"]) innerErr "q" 0
     ["boom"] rfl).2.2.2⟩

theorem first_abort_poll_finds (ab : Nat → Bool) :
    ∀ fuel k n, k ≤ n → n < k + fuel → ab n = true →
      ∃ m, k ≤ m ∧ m ≤ n ∧ first_abort_poll ab fuel k = some m
        ∧ ∀ j, k ≤ j → j < m → ab j = false := by
  intro fuel
  induction fuel with
  | zero => intro k n hk hn _; omega
  | succ fuel ih =>
    intro k n hk hn hab
    by_cases hk0 : ab k = true
    · exact ⟨k, le_refl k, hk, by simp [first_abort_poll, hk0],
        fun j h1 h2 => absurd h1 (by omega)⟩
    · have hkn : k < n := by
        rcases Nat.lt_or_ge k n with hlt | hge
        · exact hlt
        · have : k = n := by omega
          subst this
          exact absurd hab hk0
      obtain ⟨m, h1, h2, h3, h4⟩ := ih (k + 1) n (by omega) (by omega) hab
      refine ⟨m, by omega, h2, by simp [first_abort_poll, hk0, h3], ?_⟩
      intro j hj1 hj2
      rcases Nat.eq_or_lt_of_le hj1 with heq | hlt
      · subst heq
        simpa using hk0
      · exact h4 j (by omega) hj2

/-- C5: when the abort flag becomes true during a non-dry-run streaming call,
the abort watcher observes it at the first poll at or before that point (one
poll interval of latency), and the abort-watcher branch's termination invokes
"done" as the last handler event, returns Ok to the synchronous caller, and
delivers no primary-task chunk after "done". -/
theorem abort_wins_streaming (cfg : Config) (inner : InnerStream)
    (content : String) (d : Nat) (ab : Nat → Bool) (n fuel : Nat)
    (hdry : cfg.dry_run = false) (hn : ab n = true) (hfuel : n < fuel) :
    (∃ m, m ≤ n ∧ watch_abort ab fuel = some m ∧ ∀ j, j < m → ab j = false)
    ∧ (send_message_streaming cfg inner content .abortWatcher d).result = .ok ()
    ∧ (send_message_streaming cfg inner content .abortWatcher d).events
        = (inner.chunks.take d).map HEvent.text ++ [HEvent.done]
    ∧ (send_message_streaming cfg inner content .abortWatcher d).events.getLast?
        = some HEvent.done
    ∧ (send_message_streaming cfg inner content .abortWatcher d).events.count
        HEvent.done = 1 := by
  refine ⟨?_, rfl, ?_, ?_, ?_⟩
  · obtain ⟨m, _, h2, h3, h4⟩ :=
      first_abort_poll_finds ab fuel 0 n (Nat.zero_le n) (by omega) hn
    exact ⟨m, h2, h3, fun j hj => h4 j (Nat.zero_le j) hj⟩
  · simp [send_message_streaming, primary_run, hdry]
  · show (((primary_run cfg inner content).1.take d).map HEvent.text
        ++ [HEvent.done]).getLast? = some HEvent.done
    exact getLast?_concat_done _
  · show (((primary_run cfg inner content).1.take d).map HEvent.text
        ++ [HEvent.done]).count HEvent.done = 1
    exact count_done_concat _
      (by rw [List.map_take]; exact done_not_mem_take_map_text _ _)

/-- Fixture: an abort flag that becomes (and stays) set at poll index 2. -/
def abAt2 : Nat → Bool := fun k => decide (2 ≤ k)

theorem abort_wins_streaming_witness :
    cfgLive.dry_run = false ∧ abAt2 2 = true ∧ 2 < 5 ∧
    ((∃ m, m ≤ 2 ∧ watch_abort abAt2 5 = some m ∧ ∀ j, j < m → abAt2 j = false)
      ∧ (send_message_streaming cfgLive innerTwo "hi" .abortWatcher 1).result
          = .ok ()
      ∧ (send_message_streaming cfgLive innerTwo "hi" .abortWatcher 1).events
          = [HEvent.text "a", HEvent.done]
      ∧ (send_message_streaming cfgLive innerTwo "hi" .abortWatcher 1).events.getLast?
          = some HEvent.done
      ∧ (send_message_streaming cfgLive innerTwo "hi" .abortWatcher 1).events.count
          HEvent.done = 1) :=
  ⟨rfl, rfl, by decide,
   abort_wins_streaming cfgLive innerTwo "hi" 1 abAt2 2 5 rfl rfl (by decide)⟩

/-- C6: per streaming call exactly one select branch wins (the `Winner` of the
race); the primary-task and abort-watcher terminal paths emit "done" exactly
once as the last handler event and do not mark the interrupt sub-state, while
the ctrl-c path marks the abort signal's interrupted sub-state and returns Ok
without emitting "done". -/
theorem streaming_terminal_paths (cfg : Config) (inner : InnerStream)
    (content : String) (d : Nat) :
    ((send_message_streaming cfg inner content .primary d).events.count
        HEvent.done = 1
      ∧ (send_message_streaming cfg inner content .primary d).events.getLast?
          = some HEvent.done
      ∧ (send_message_streaming cfg inner content .primary d).ctrlcSet = false)
    ∧ ((send_message_streaming cfg inner content .abortWatcher d).events.count
        HEvent.done = 1
      ∧ (send_message_streaming cfg inner content .abortWatcher d).events.getLast?
          = some HEvent.done
      ∧ (send_message_streaming cfg inner content .abortWatcher d).result = .ok ()
      ∧ (send_message_streaming cfg inner content .abortWatcher d).ctrlcSet = false)
    ∧ ((send_message_streaming cfg inner content .ctrlc d).events.count
        HEvent.done = 0
      ∧ (send_message_streaming cfg inner content .ctrlc d).ctrlcSet = true
      ∧ (send_message_streaming cfg inner content .ctrlc d).result = .ok ()) := by
  refine ⟨⟨?_, ?_, rfl⟩, ⟨?_, ?_, rfl, rfl⟩, ⟨?_, rfl, rfl⟩⟩
  · show ((primary_run cfg inner content).1.map HEvent.text
        ++ [HEvent.done]).count HEvent.done = 1
    exact count_done_concat _ (by simp)
  · show ((primary_run cfg inner content).1.map HEvent.text
        ++ [HEvent.done]).getLast? = some HEvent.done
    exact getLast?_concat_done _
  · show (((primary_run cfg inner content).1.take d).map HEvent.text
        ++ [HEvent.done]).count HEvent.done = 1
    exact count_done_concat _
      (by rw [List.map_take]; exact done_not_mem_take_map_text _ _)
  · show (((primary_run cfg inner content).1.take d).map HEvent.text
        ++ [HEvent.done]).getLast? = some HEvent.done
    exact getLast?_concat_done _
  · show (((primary_run cfg inner content).1.take d).map
        HEvent.text).count HEvent.done = 0
    exact count_done_zero _
      (by rw [List.map_take]; exact done_not_mem_take_map_text _ _)

/-- C4: client instantiation probes the registered backend kinds in the fixed
order OpenAI then LocalAI, returns the first matching concrete client, and
when neither matches fails with an error naming the configured backend
identifier and its zero-based position in the configured backend list. -/
theorem init_client_probe_order {κ : Type}
    (openai_init localai_init : Config → Option κ) (config : Config) :
    (∀ c, openai_init config = some c →
      init_client openai_init localai_init config = .ok c)
    ∧ (openai_init config = none → ∀ c, localai_init config = some c →
      init_client openai_init localai_init config = .ok c)
    ∧ (openai_init config = none → localai_init config = none →
      init_client openai_init localai_init config
        = .error ("Unknown client " ++ config.model_info.client
            ++ " at config.clients[" ++ toString config.model_info.index
            ++ "]")) := by
  refine ⟨?_, ?_, ?_⟩
  · intro c hc
    simp [init_client, hc, Option.orElse]
  · intro h1 c hc
    simp [init_client, h1, hc, Option.orElse]
  · intro h1 h2
    simp [init_client, h1, h2, Option.orElse]

/-- Fixture probes: always match with client 1, always match with client 2,
never match. -/
def probeOne : Config → Option Nat := fun _ => some 1

def probeTwo : Config → Option Nat := fun _ => some 2

def probeNone : Config → Option Nat := fun _ => none

theorem init_client_probe_order_witness :
    init_client probeOne probeTwo cfgDry = .ok 1
    ∧ init_client probeNone probeTwo cfgDry = .ok 2
    ∧ init_client probeNone probeNone cfgLive
        = .error "Unknown client mystery at config.clients[3]" :=
  ⟨(init_client_probe_order probeOne probeTwo cfgDry).1 1 rfl,
   (init_client_probe_order probeNone probeTwo cfgDry).2.1 rfl 2 rfl,
   (init_client_probe_order probeNone probeNone cfgLive).2.2 rfl rfl⟩

/-- C9: the configuration-template operation returns the matching kind's
template for a registered kind name ("openai" or "localai", the registered
kinds in their fixed order), and fails with an "Unknown client" error naming
the given identifier otherwise. -/
theorem create_client_config_kinds (openai_tpl localai_tpl client : String) :
    (client = "openai" →
      create_client_config openai_tpl localai_tpl client = .ok openai_tpl)
    ∧ (client = "localai" →
      create_client_config openai_tpl localai_tpl client = .ok localai_tpl)
    ∧ (client ≠ "openai" → client ≠ "localai" →
      create_client_config openai_tpl localai_tpl client
        = .error ("Unknown client " ++ client))
    ∧ all_clients = ["openai", "localai"] := by
  refine ⟨?_, ?_, ?_, rfl⟩
  · intro h
    simp [create_client_config, OpenAIClient.name, h]
  · intro h
    subst h
    simp [create_client_config, OpenAIClient.name, LocalAIClient.name]
  · intro h1 h2
    simp [create_client_config, OpenAIClient.name, LocalAIClient.name, h1, h2]

theorem create_client_config_kinds_witness :
    create_client_config "tplO" "tplL" "openai" = .ok "tplO"
    ∧ create_client_config "tplO" "tplL" "localai" = .ok "tplL"
    ∧ create_client_config "tplO" "tplL" "gemini"
        = .error "Unknown client gemini" :=
  ⟨(create_client_config_kinds "tplO" "tplL" "openai").1 rfl,
   (create_client_config_kinds "tplO" "tplL" "localai").2.1 rfl,
   (create_client_config_kinds "tplO" "tplL" "gemini").2.2.1
     (by decide) (by decide)⟩

theorem catalog_enumFrom (cs : List ClientConfig) :
    ∀ k, ((cs.enumFrom k).map (fun p =>
        match p.2 with
        | ClientConfig.openai c => OpenAIClient.list_models c p.1
        | ClientConfig.localai c => LocalAIClient.list_models c p.1)).flatten
      = catalog_from cs k := by
  induction cs with
  | nil => intro k; rfl
  | cons c rest ih =>
    intro k
    cases c <;> simp [List.enumFrom, catalog_from, kind_models, ih (k + 1)]

theorem mem_kind_models_index (m : ModelInfo) (c : ClientConfig) (k : Nat)
    (h : m ∈ kind_models c k) : m.index = k := by
  cases c <;>
  · simp [kind_models, OpenAIClient.list_models, LocalAIClient.list_models,
      List.mem_map] at h
    obtain ⟨e, _, he⟩ := h
    subst he
    rfl

theorem mem_catalog_bound (m : ModelInfo) :
    ∀ (cs : List ClientConfig) (k : Nat), m ∈ catalog_from cs k →
      m.index < k + cs.length := by
  intro cs
  induction cs with
  | nil =>
    intro k h
    simp [catalog_from] at h
  | cons c rest ih =>
    intro k h
    simp only [catalog_from, List.mem_append] at h
    rcases h with h | h
    · have hk := mem_kind_models_index m c k h
      simp only [List.length_cons]
      omega
    · have := ih (k + 1) h
      simp only [List.length_cons]
      omega

/-- C7: `list_models` equals the catalog the spec describes — the
concatenation, in configuration order, of each backend entry's models tagged
with that entry's zero-based position (so within-backend order is preserved
and an entry with zero models contributes nothing) — and every returned
entry's `index` is a valid position in the configured backend list. -/
theorem list_models_catalog (config : Config) :
    list_models config = catalog_from config.clients 0
    ∧ ∀ m ∈ list_models config, m.index < config.clients.length := by
  have h0 : list_models config = catalog_from config.clients 0 :=
    catalog_enumFrom config.clients 0
  refine ⟨h0, ?_⟩
  intro m hm
  rw [h0] at hm
  have := mem_catalog_bound m config.clients 0 hm
  omega

/-- Fixture: the spec's worked example — openai offering two models, localai
offering one. -/
def cfgCatalog : Config :=
  { dry_run := false
    echo_messages := fun s => s
    model_info := { client := "openai", name := "gpt-a", max_tokens := 4096, index := 0 }
    clients :=
      [ClientConfig.openai { models := [{ mname := "gpt-a", max_tokens := 4096 },
                                        { mname := "gpt-b", max_tokens := 8192 }] },
       ClientConfig.localai { models := [{ mname := "local-x", max_tokens := 2048 }] }] }

theorem list_models_catalog_witness :
    list_models cfgCatalog = catalog_from cfgCatalog.clients 0
    ∧ (ModelInfo.mk "localai" "local-x" 2048 1).index < cfgCatalog.clients.length :=
  ⟨(list_models_catalog cfgCatalog).1,
   (list_models_catalog cfgCatalog).2 (ModelInfo.mk "localai" "local-x" 2048 1)
     (by decide)⟩

end AIChat
